import Mathlib

/-!
Verification of the semantic-similarity and confidence-scoring subsystem of
tidal-streamline (backend/app/services/vector_search.py,
backend/app/services/embedding_service.py,
backend/app/services/job_analyzer.py) against its natural-language
specification.

Python floats are modelled as exact rationals (ℚ), Python ints as ℤ/ℕ,
Python lists as Lean lists, and fallible operations as Option/Except.
External collaborators (the OpenAI embedding provider, the Pinecone index,
the standard json library) are modelled as explicit parameters: the outcome
of each external call is an input to the modelled function.
-/

namespace Tidal

/-- The result record built per retrieved neighbor by
`embedding_service.find_similar_scans` (the `similar_scan` dict,
embedding_service.py lines 228-241). -/
structure SimilarScan where
  scan_id : String
  similarity_score : ℚ
  job_title : String
  company_domain : String
  client_name : String
  role_category : String
  experience_level : String
  complexity_score : ℚ
  must_have_skills : List String
  recommended_regions : List String
  created_at : String
  embedding_preview : String
deriving DecidableEq, Repr

/-- `app.models.market_scan.JobAnalysis` (pydantic model). The enum-valued
fields (`role_category`, `experience_level`) are modelled as strings; their
exact carrier is irrelevant to the verified claims. -/
structure JobAnalysis where
  role_category : String
  experience_level : String
  years_experience_required : String
  must_have_skills : List String
  nice_to_have_skills : List String
  key_responsibilities : List String
  remote_work_suitability : String
  complexity_score : ℤ
  recommended_regions : List String
  unique_challenges : String
  salary_factors : List String
deriving DecidableEq, Repr

/-! ## ConfidenceScorer: `VectorSearchService._calculate_confidence_score` -/

/-- The accumulation loop
`for i, scan in enumerate(similar_scans[:3]): weight = 1.0/(i+1); ...`
(vector_search.py lines 66-72), started at index `i`: returns the pair
`(weighted_sum, total_weight)`. -/
def conf_totals : ℕ → List SimilarScan → ℚ × ℚ
  | _, [] => (0, 0)
  | i, scan :: rest =>
    let weight : ℚ := 1 / (i + 1)
    let p := conf_totals (i + 1) rest
    (scan.similarity_score * weight + p.1, weight + p.2)

/-- `VectorSearchService._calculate_confidence_score`
(vector_search.py lines 60-75). -/
def calculate_confidence_score (similar_scans : List SimilarScan) : ℚ :=
  if similar_scans = [] then 0
  else
    let p := conf_totals 0 (similar_scans.take 3)
    let confidence := if 0 < p.2 then p.1 / p.2 else 0
    min confidence 1

/-- The spec's formula for the confidence score, written from the spec's
words: "confidence = Σ(score_i · w_i) / Σ(w_i) over i ∈ {0,1,2}∩available,
clamped to max 1.0", with w_i = 1/(rank+1). -/
def confidence_formula_spec (scores : List ℚ) : ℚ :=
  let n := min 3 scores.length
  min ((∑ i ∈ Finset.range n, scores.getD i 0 * (1 / ((i : ℚ) + 1))) /
       (∑ i ∈ Finset.range n, (1 : ℚ) / ((i : ℚ) + 1))) 1

/-- A match record carrying only a similarity score (all other fields are
placeholder values); used to build concrete inputs. -/
def mkMatch (score : ℚ) : SimilarScan :=
  { scan_id := "", similarity_score := score, job_title := "",
    company_domain := "", client_name := "", role_category := "",
    experience_level := "", complexity_score := 5, must_have_skills := [],
    recommended_regions := [], created_at := "", embedding_preview := "" }

/-- A match record carrying only a complexity score. -/
def mkScanC (complexity : ℚ) : SimilarScan :=
  { mkMatch 0 with complexity_score := complexity }

/-- A match record carrying only a must-have skill list. -/
def mkScanSkills (skills : List String) : SimilarScan :=
  { mkMatch 0 with must_have_skills := skills }

/-- A baseline `JobAnalysis` with the given complexity and skill lists
(remaining fields are fixed sample values). -/
def mkBaseline (complexity : ℤ) (must nice : List String) : JobAnalysis :=
  { role_category := "Data Analyst", experience_level := "mid",
    years_experience_required := "3-5 years", must_have_skills := must,
    nice_to_have_skills := nice, key_responsibilities := ["Analyze performance"],
    remote_work_suitability := "high", complexity_score := complexity,
    recommended_regions := ["Philippines"], unique_challenges := "none",
    salary_factors := ["Experience level"] }

/-! ## AnalysisEnhancer: `JobAnalyzer._enhance_analysis_with_similar_scans` -/

/-- Python `int()` applied to a float: truncation toward zero. -/
def pyInt (q : ℚ) : ℤ := if 0 ≤ q then ⌊q⌋ else ⌈q⌉

/-- `sum(1 for scan in similar_scans if skill in scan.get("must_have_skills", []))`
(job_analyzer.py line 134). -/
def count_scans_with_skill (similar_scans : List SimilarScan) (skill : String) : ℕ :=
  (similar_scans.filter (fun scan => decide (skill ∈ scan.must_have_skills))).length

/-- The contents of the Python set `similar_skills` accumulated by
`similar_skills.update(scan.get("must_have_skills", []))` over all scans
(job_analyzer.py lines 96-103): its distinct elements. A Python set has no
specified iteration order, so functions that iterate it are parameterized
below by an enumeration `ord` that is some permutation of this list. -/
def all_similar_skills (similar_scans : List SimilarScan) : List String :=
  (similar_scans.foldl (fun acc scan => acc ++ scan.must_have_skills) []).dedup

/-- The condition of the comprehension building `frequent_similar_skills`
(job_analyzer.py lines 132-134): not already among the baseline's skills
(`current_skills` is the set of must-have plus nice-to-have), and contained
in the must-have skills of at least 2 of the similar scans. -/
def qualifies_as_frequent (job_analysis : JobAnalysis)
    (similar_scans : List SimilarScan) (skill : String) : Prop :=
  skill ∉ job_analysis.must_have_skills ∧
    skill ∉ job_analysis.nice_to_have_skills ∧
    2 ≤ count_scans_with_skill similar_scans skill

instance (ja : JobAnalysis) (ss : List SimilarScan) (sk : String) :
    Decidable (qualifies_as_frequent ja ss sk) := by
  unfold qualifies_as_frequent
  infer_instance

/-- `frequent_similar_skills` (job_analyzer.py lines 132-134), built by
iterating the set `similar_skills` in the enumeration order `ord`. -/
def frequent_similar_skills (ord : List String) (ja : JobAnalysis)
    (ss : List SimilarScan) : List String :=
  ord.filter (fun skill => decide (qualifies_as_frequent ja ss skill))

/-- Number of skills satisfying the `frequent_similar_skills` condition. -/
def count_qualifying (ja : JobAnalysis) (ss : List SimilarScan) : ℕ :=
  (frequent_similar_skills (all_similar_skills ss) ja ss).length

/-- `JobAnalyzer._enhance_analysis_with_similar_scans`
(job_analyzer.py lines 85-150), parameterized by the iteration order `ord`
of the Python set `similar_skills`. -/
def enhance_analysis_with_similar_scans (ord : List String)
    (job_analysis : JobAnalysis) (similar_scans : List SimilarScan) : JobAnalysis :=
  if similar_scans = [] then job_analysis
  else
    let complexity_scores := similar_scans.map (·.complexity_score)
    if 2 ≤ similar_scans.length then
      let nice := job_analysis.nice_to_have_skills ++
        (frequent_similar_skills ord job_analysis similar_scans).take 2
      let complexity :=
        if complexity_scores = [] then job_analysis.complexity_score
        else
          let similar_avg := complexity_scores.sum / (complexity_scores.length : ℚ)
          let adjusted :=
            pyInt ((job_analysis.complexity_score : ℚ) * (7/10) + similar_avg * (3/10))
          max 1 (min 10 adjusted)
      { job_analysis with nice_to_have_skills := nice, complexity_score := complexity }
    else job_analysis

/-! ## SimilarityMatcher: `EmbeddingService.find_similar_scans` -/

/-- The metadata stored with a vector in the index. Fields are `Option`:
`none` models an absent key, read back via `metadata.get(key, default)`. -/
structure VectorMetadata where
  job_title : Option String
  company_domain : Option String
  client_name : Option String
  role_category : Option String
  experience_level : Option String
  complexity_score : Option ℚ
  must_have_skills : Option String
  recommended_regions : Option String
  created_at : Option String
  embedding_text_preview : Option String
deriving DecidableEq, Repr

/-- One neighbor returned by the index `query` call. -/
structure Neighbor where
  id : String
  score : ℚ
  metadata : VectorMetadata
deriving DecidableEq, Repr

/-- Python truthiness test
`if exclude_scan_id and match.id == exclude_scan_id` (embedding_service.py
line 225): an empty-string exclude id is falsy, disabling the check. -/
def exclude_check (exclude_scan_id : Option String) (id : String) : Bool :=
  match exclude_scan_id with
  | none => false
  | some e => decide (e ≠ "") && decide (id = e)

/-- The `similar_scan` dict built for one surviving neighbor
(embedding_service.py lines 228-241). `json_loads` models `json.loads`
restricted to serialized string lists; `none` models a raised
`JSONDecodeError`, which propagates out of the construction. -/
def build_similar_scan (json_loads : String → Option (List String))
    (m : Neighbor) : Option SimilarScan :=
  match json_loads (m.metadata.must_have_skills.getD "[]") with
  | none => none
  | some skills =>
    match json_loads (m.metadata.recommended_regions.getD "[]") with
    | none => none
    | some regions =>
      some { scan_id := m.id, similarity_score := m.score,
             job_title := m.metadata.job_title.getD "",
             company_domain := m.metadata.company_domain.getD "",
             client_name := m.metadata.client_name.getD "",
             role_category := m.metadata.role_category.getD "",
             experience_level := m.metadata.experience_level.getD "",
             complexity_score := m.metadata.complexity_score.getD 5,
             must_have_skills := skills,
             recommended_regions := regions,
             created_at := m.metadata.created_at.getD "",
             embedding_preview := m.metadata.embedding_text_preview.getD "" }

/-- The `for match in query_response.matches` filter/convert loop
(embedding_service.py lines 218-243): skip a neighbor below the threshold
or matching the exclude id; an exception while deserializing metadata
aborts the whole loop. -/
def process_query_matches (json_loads : String → Option (List String))
    (similarity_threshold : ℚ) (exclude_scan_id : Option String) :
    List Neighbor → Except String (List SimilarScan)
  | [] => Except.ok []
  | m :: rest =>
    if m.score < similarity_threshold then
      process_query_matches json_loads similarity_threshold exclude_scan_id rest
    else if exclude_check exclude_scan_id m.id then
      process_query_matches json_loads similarity_threshold exclude_scan_id rest
    else
      match build_similar_scan json_loads m with
      | none => Except.error "JSONDecodeError"
      | some s =>
        (process_query_matches json_loads similarity_threshold exclude_scan_id rest).map
          (fun l => s :: l)

/-- `EmbeddingService.find_similar_scans` (embedding_service.py lines
188-253). `embed_result` is the outcome of the `generate_embedding` call
and `query_result` the outcome of `index.query` — external calls whose
failures raise; the function's single `except` handler catches every
exception raised in the body and returns the empty list. -/
def find_similar_scans (json_loads : String → Option (List String))
    (embed_result : Except String Unit)
    (query_result : Except String (List Neighbor))
    (top_k : ℕ) (similarity_threshold : ℚ)
    (exclude_scan_id : Option String) : List SimilarScan :=
  match embed_result with
  | Except.error _ => []
  | Except.ok _ =>
    match query_result with
    | Except.error _ => []
    | Except.ok query_matches =>
      match process_query_matches json_loads similarity_threshold exclude_scan_id
          query_matches with
      | Except.error _ => []
      | Except.ok similar_scans => similar_scans.take top_k

/-- `VectorSearchService.find_similar_market_scans` (vector_search.py lines
20-58). The `_enrich_similar_scans` step only adds advisory keys that are
not part of the modelled record (and runs after the confidence score is
computed), so it is the identity here. -/
def find_similar_market_scans (json_loads : String → Option (List String))
    (embed_result : Except String Unit)
    (query_result : Except String (List Neighbor))
    (max_results : ℕ) (similarity_threshold : ℚ)
    (current_scan_id : Option String) : List SimilarScan × ℚ :=
  let similar_scans := find_similar_scans json_loads embed_result query_result
    max_results similarity_threshold current_scan_id
  let confidence_score := calculate_confidence_score similar_scans
  (similar_scans, confidence_score)

/-! ## Embedding text construction (write path vs query path) -/

/-- `EmbeddingService._clean_text_for_embedding` (embedding_service.py
lines 114-125): collapse whitespace runs (`" ".join(text.split())`) and
truncate to 8000 characters with an ellipsis appended. -/
def clean_text_for_embedding (text : String) : String :=
  let clean_text :=
    " ".intercalate ((text.split (fun c => c.isWhitespace)).filter
      (fun piece => !piece.isEmpty))
  if clean_text.length > 8000 then clean_text.take 8000 ++ "..." else clean_text

/-- The embedding text built on the write path (`upsert_market_scan`,
embedding_service.py line 145). -/
def upsert_embedding_text (job_title job_description : String) : String :=
  "Job Title: " ++ job_title ++ "\n\nJob Description: " ++ job_description

/-- The embedding text built on the query path (`find_similar_scans`,
embedding_service.py line 199). -/
def query_embedding_text (job_title job_description : String) : String :=
  "Job Title: " ++ job_title ++ "\n\nJob Description: " ++ job_description

/-! ## Concrete example inputs -/

/-- A metadata record with every field absent. -/
def empty_metadata : VectorMetadata :=
  { job_title := none, company_domain := none, client_name := none,
    role_category := none, experience_level := none, complexity_score := none,
    must_have_skills := none, recommended_regions := none, created_at := none,
    embedding_text_preview := none }

/-- A well-formed neighbor with absent metadata fields. -/
def good_neighbor : Neighbor :=
  { id := "scan-1", score := 9/10, metadata := empty_metadata }

/-- A neighbor whose serialized skill list is unparseable. -/
def bad_neighbor : Neighbor :=
  { id := "scan-2", score := 85/100,
    metadata := { empty_metadata with must_have_skills := some "not-json" } }

/-- A neighbor whose id is the empty string. -/
def empty_id_neighbor : Neighbor :=
  { id := "", score := 9/10, metadata := empty_metadata }

/-- A model of the external `json.loads` at the behaviours the code relies
on: the serialized empty list parses to the empty list, anything
unrecognized (such as `"not-json"`) raises. -/
def json_loads_model (s : String) : Option (List String) :=
  if s = "[]" then some [] else none

/-- The record `build_similar_scan` produces for `good_neighbor`: every
absent metadata field replaced by its default. -/
def default_scan : SimilarScan :=
  { scan_id := "scan-1", similarity_score := 9/10, job_title := "",
    company_domain := "", client_name := "", role_category := "",
    experience_level := "", complexity_score := 5, must_have_skills := [],
    recommended_regions := [], created_at := "", embedding_preview := "" }

/-! ## C1: the confidence score and the spec's weighted-average formula -/

/-- C1 counterexample: on the spec's own example list of similarity scores
[0.9, 0.8, 0.7] the computed confidence is exactly 46/55 = 0.83636…, which
is more than 0.001 above the value 0.833 the spec claims the example
yields, so it does not round to 0.833 at three decimal places. -/
theorem confidence_example_not_0833 :
    calculate_confidence_score [mkMatch (9/10), mkMatch (8/10), mkMatch (7/10)] = 46/55 ∧
    (833 : ℚ)/1000 + 1/1000 < 46/55 := by
  constructor
  · norm_num [calculate_confidence_score, conf_totals, mkMatch, List.cons_ne_nil]
  · norm_num

/-- C1 (amended): for every list of matches the confidence score equals the
spec's formula — the weighted average of the similarity scores of the top
min(3, length) matches with weight 1/(rank+1), clamped to a maximum of
1.0 — and the example list [0.9, 0.8, 0.7] yields exactly 46/55 ≈ 0.836
(not 0.833). -/
theorem confidence_score_spec_formula :
    (∀ ms : List SimilarScan,
      calculate_confidence_score ms =
        confidence_formula_spec (ms.map (·.similarity_score))) ∧
    calculate_confidence_score [mkMatch (9/10), mkMatch (8/10), mkMatch (7/10)] = 46/55 := by
  constructor
  · intro ms
    match ms with
    | [] => simp [calculate_confidence_score, confidence_formula_spec]
    | [a] =>
        norm_num [calculate_confidence_score, confidence_formula_spec, conf_totals,
          Finset.sum_range_succ, List.cons_ne_nil]
    | [a, b] =>
        norm_num [calculate_confidence_score, confidence_formula_spec, conf_totals,
          Finset.sum_range_succ, List.cons_ne_nil]
    | a :: b :: c :: rest =>
        norm_num [calculate_confidence_score, confidence_formula_spec, conf_totals,
          Finset.sum_range_succ, List.cons_ne_nil]
        congr 1
        field_simp
        try ring
  · norm_num [calculate_confidence_score, conf_totals, mkMatch, List.cons_ne_nil]

/-! ## C9: confidence bounds -/

/-- C9 counterexample: the singleton match list with similarity score 0 —
every score lies in [0,1] and the list is non-empty, yet the computed
confidence is 0, not strictly positive as the claim requires. -/
theorem confidence_zero_score_not_positive :
    calculate_confidence_score [mkMatch 0] = 0 ∧
    ¬ 0 < calculate_confidence_score [mkMatch 0] := by
  have h : calculate_confidence_score [mkMatch 0] = 0 := by
    norm_num [calculate_confidence_score, conf_totals, mkMatch, List.cons_ne_nil]
  exact ⟨h, by rw [h]; exact lt_irrefl 0⟩

/-- C9 (amended): score([]) is exactly 0, and for every non-empty match
list with each similarity score in [0,1] the confidence lies in [0,1]; it
is strictly positive whenever at least one of the top min(3, length)
scores is strictly positive (a list whose top-3 scores are all 0 yields
confidence 0, so strict positivity does not hold unconditionally). -/
theorem confidence_bounds (ms : List SimilarScan) (hne : ms ≠ [])
    (hb : ∀ m ∈ ms, 0 ≤ m.similarity_score ∧ m.similarity_score ≤ 1) :
    calculate_confidence_score [] = 0 ∧
    0 ≤ calculate_confidence_score ms ∧ calculate_confidence_score ms ≤ 1 ∧
    ((∃ m ∈ ms.take 3, 0 < m.similarity_score) → 0 < calculate_confidence_score ms) := by
  refine ⟨by norm_num [calculate_confidence_score], ?_⟩
  match ms with
  | [] => exact absurd rfl hne
  | [a] =>
      have hc : calculate_confidence_score [a] = min a.similarity_score 1 := by
        norm_num [calculate_confidence_score, conf_totals, List.cons_ne_nil]
      obtain ⟨ha0, ha1⟩ := hb a (by simp)
      rw [hc]
      refine ⟨le_min ha0 zero_le_one, min_le_right _ _, fun hpos => ?_⟩
      obtain ⟨m, hm, hmpos⟩ := hpos
      simp at hm
      subst hm
      exact lt_min hmpos one_pos
  | [a, b] =>
      have hc : calculate_confidence_score [a, b] =
          min (a.similarity_score * (2/3) + b.similarity_score * (1/3)) 1 := by
        norm_num [calculate_confidence_score, conf_totals, List.cons_ne_nil]
        congr 1
        field_simp
        try ring
      obtain ⟨ha0, ha1⟩ := hb a (by simp)
      obtain ⟨hb0, hb1⟩ := hb b (by simp)
      rw [hc]
      refine ⟨le_min (by linarith) zero_le_one, min_le_right _ _, fun hpos => ?_⟩
      refine lt_min ?_ one_pos
      obtain ⟨m, hm, hmpos⟩ := hpos
      simp at hm
      rcases hm with h | h <;> subst h <;> linarith
  | a :: b :: c :: rest =>
      have hc : calculate_confidence_score (a :: b :: c :: rest) =
          min (a.similarity_score * (6/11) + b.similarity_score * (3/11) +
            c.similarity_score * (2/11)) 1 := by
        norm_num [calculate_confidence_score, conf_totals, List.cons_ne_nil]
        congr 1
        field_simp
        try ring
      obtain ⟨ha0, ha1⟩ := hb a (by simp)
      obtain ⟨hb0, hb1⟩ := hb b (by simp)
      obtain ⟨hc0, hc1⟩ := hb c (by simp)
      rw [hc]
      refine ⟨le_min (by linarith) zero_le_one, min_le_right _ _, fun hpos => ?_⟩
      refine lt_min ?_ one_pos
      obtain ⟨m, hm, hmpos⟩ := hpos
      simp at hm
      rcases hm with h | h | h <;> subst h <;> linarith

/-! ## C2: complexity blending in the enhancement step -/

/-- C2 counterexample: baseline complexity 9 with two matches of complexity
8 gives the blend 9·0.7 + 8·0.3 = 8.7; the code truncates it with `int()`
to 8, while the claimed `round` would give 9. -/
theorem enhanced_complexity_not_rounded :
    (enhance_analysis_with_similar_scans [] (mkBaseline 9 [] [])
      [mkScanC 8, mkScanC 8]).complexity_score = 8 ∧
    max 1 (min 10 (round ((9 : ℚ) * (7/10) + ((8 + 8)/2) * (3/10)))) = 9 := by
  constructor
  · norm_num [enhance_analysis_with_similar_scans, mkBaseline, mkScanC, mkMatch,
      frequent_similar_skills, pyInt, List.cons_ne_nil]
  · norm_num [round_eq]

/-- C2 (amended): for every baseline analysis and match list with at least
2 entries, the enhanced complexity equals the blend
baseline·0.7 + mean(match complexities)·0.3 truncated toward zero by
Python `int()` (not rounded to nearest), clamped to [1,10]. -/
theorem enhanced_complexity_blend_truncated (ord : List String) (ja : JobAnalysis)
    (ss : List SimilarScan) (h2 : 2 ≤ ss.length) :
    (enhance_analysis_with_similar_scans ord ja ss).complexity_score =
      max 1 (min 10 (pyInt ((ja.complexity_score : ℚ) * (7/10) +
        ((ss.map (·.complexity_score)).sum / (ss.length : ℚ)) * (3/10)))) := by
  have hne : ss ≠ [] := by rintro rfl; simp at h2
  simp [enhance_analysis_with_similar_scans, hne, h2, List.map_eq_nil_iff,
    List.length_map]

/-- Witness for `enhanced_complexity_blend_truncated` at the spec's example:
baseline complexity 8 and match complexities [6,4] yield int(7.1) = 7. -/
theorem enhanced_complexity_blend_truncated_witness :
    2 ≤ [mkScanC 6, mkScanC 4].length ∧
    (enhance_analysis_with_similar_scans [] (mkBaseline 8 [] [])
      [mkScanC 6, mkScanC 4]).complexity_score = 7 :=
  ⟨by simp, by
    rw [enhanced_complexity_blend_truncated [] (mkBaseline 8 [] [])
      [mkScanC 6, mkScanC 4] (by simp)]
    norm_num [mkBaseline, mkScanC, mkMatch, pyInt]⟩

/-! ## C3: skill augmentation in the enhancement step -/

/-- C3 counterexample: two matches both requiring skills A and B (first
seen in the order A, B), baseline with no skills. The enumeration
["B","A"] is a legitimate iteration order of the Python set
`similar_skills`, and under it the appended skills are ["B","A"], not the
first-seen-order ["A","B"] the claim requires. -/
theorem enhanced_skills_order_not_first_seen :
    (["B", "A"] : List String).Perm
      (all_similar_skills [mkScanSkills ["A", "B"], mkScanSkills ["A", "B"]]) ∧
    (enhance_analysis_with_similar_scans ["B", "A"] (mkBaseline 5 [] [])
        [mkScanSkills ["A", "B"], mkScanSkills ["A", "B"]]).nice_to_have_skills ≠
      (mkBaseline 5 [] []).nice_to_have_skills ++ ["A", "B"] := by
  constructor
  · decide
  · decide

/-- C3 (amended): the skills appended to nice_to_have_skills are the first
at-most-2 qualifying skills in the iteration order of the Python set
`similar_skills` — an implementation-defined permutation of the distinct
collected skills, not necessarily first-seen order. For every such order:
each appended skill appears in the must_have_skills of at least 2 matches
and is absent from the baseline's skills, the appended skills are distinct,
and their number is min(2, number of qualifying skills) — so whenever at
most 2 skills qualify, exactly the qualifying skills are appended (only
their relative order is implementation-defined). -/
theorem enhanced_skills_from_set_order (ord : List String) (ja : JobAnalysis)
    (ss : List SimilarScan) (hord : ord.Perm (all_similar_skills ss))
    (h2 : 2 ≤ ss.length) :
    ∃ extra,
      (enhance_analysis_with_similar_scans ord ja ss).nice_to_have_skills =
        ja.nice_to_have_skills ++ extra ∧
      extra.Nodup ∧
      extra.length = min 2 (count_qualifying ja ss) ∧
      ∀ sk ∈ extra, qualifies_as_frequent ja ss sk := by
  have hne : ss ≠ [] := by rintro rfl; simp at h2
  refine ⟨(frequent_similar_skills ord ja ss).take 2, ?_, ?_, ?_, ?_⟩
  · simp [enhance_analysis_with_similar_scans, hne, h2]
  · have hnd : ord.Nodup := (hord.nodup_iff).mpr (List.nodup_dedup _)
    exact (List.take_sublist _ _).nodup (hnd.filter _)
  · have hlen : (frequent_similar_skills ord ja ss).length = count_qualifying ja ss := by
      unfold frequent_similar_skills count_qualifying
      exact (hord.filter _).length_eq
    rw [List.length_take, hlen]
  · intro sk hsk
    have h1 : sk ∈ frequent_similar_skills ord ja ss := List.mem_of_mem_take hsk
    have h2m := List.mem_filter.mp h1
    exact of_decide_eq_true h2m.2

/-- Witness for `enhanced_skills_from_set_order` at two matches sharing
skills A and B, iterated in collection order. -/
theorem enhanced_skills_from_set_order_witness :
    (all_similar_skills [mkScanSkills ["A", "B"], mkScanSkills ["A", "B"]]).Perm
      (all_similar_skills [mkScanSkills ["A", "B"], mkScanSkills ["A", "B"]]) ∧
    2 ≤ [mkScanSkills ["A", "B"], mkScanSkills ["A", "B"]].length ∧
    ∃ extra,
      (enhance_analysis_with_similar_scans
          (all_similar_skills [mkScanSkills ["A", "B"], mkScanSkills ["A", "B"]])
          (mkBaseline 5 [] [])
          [mkScanSkills ["A", "B"], mkScanSkills ["A", "B"]]).nice_to_have_skills =
        (mkBaseline 5 [] []).nice_to_have_skills ++ extra ∧
      extra.Nodup ∧
      extra.length =
        min 2 (count_qualifying (mkBaseline 5 [] [])
          [mkScanSkills ["A", "B"], mkScanSkills ["A", "B"]]) ∧
      ∀ sk ∈ extra,
        qualifies_as_frequent (mkBaseline 5 [] [])
          [mkScanSkills ["A", "B"], mkScanSkills ["A", "B"]] sk :=
  ⟨List.Perm.refl _, by simp,
    enhanced_skills_from_set_order _ _ _ (List.Perm.refl _) (by simp)⟩

/-! ## C5: the enhancement step's frame -/

/-- The two possible shapes of the enhancement result: the baseline
unchanged, or the baseline with only nice_to_have_skills extended and
complexity_score replaced. -/
theorem enhance_shape (ord : List String) (ja : JobAnalysis) (ss : List SimilarScan) :
    enhance_analysis_with_similar_scans ord ja ss = ja ∨
    ∃ c, enhance_analysis_with_similar_scans ord ja ss =
      { ja with
        nice_to_have_skills :=
          ja.nice_to_have_skills ++ (frequent_similar_skills ord ja ss).take 2,
        complexity_score := c } := by
  unfold enhance_analysis_with_similar_scans
  split_ifs with h1 h2
  · left; rfl
  · right; exact ⟨_, rfl⟩
  · left; rfl

/-- C5: for every baseline, match list and set-iteration order, the
enhanced analysis agrees with the baseline on every field other than
complexity_score and nice_to_have_skills; must_have_skills is always the
baseline's, and nice_to_have_skills is the baseline's list extended by at
most 2 entries. -/
theorem enhance_frame_fields_preserved (ord : List String) (ja : JobAnalysis)
    (ss : List SimilarScan) :
    (enhance_analysis_with_similar_scans ord ja ss).role_category = ja.role_category ∧
    (enhance_analysis_with_similar_scans ord ja ss).experience_level = ja.experience_level ∧
    (enhance_analysis_with_similar_scans ord ja ss).years_experience_required =
      ja.years_experience_required ∧
    (enhance_analysis_with_similar_scans ord ja ss).key_responsibilities =
      ja.key_responsibilities ∧
    (enhance_analysis_with_similar_scans ord ja ss).remote_work_suitability =
      ja.remote_work_suitability ∧
    (enhance_analysis_with_similar_scans ord ja ss).recommended_regions =
      ja.recommended_regions ∧
    (enhance_analysis_with_similar_scans ord ja ss).unique_challenges =
      ja.unique_challenges ∧
    (enhance_analysis_with_similar_scans ord ja ss).salary_factors = ja.salary_factors ∧
    (enhance_analysis_with_similar_scans ord ja ss).must_have_skills =
      ja.must_have_skills ∧
    ∃ extra,
      (enhance_analysis_with_similar_scans ord ja ss).nice_to_have_skills =
        ja.nice_to_have_skills ++ extra ∧ extra.length ≤ 2 := by
  rcases enhance_shape ord ja ss with h | ⟨c, h⟩
  · rw [h]
    exact ⟨rfl, rfl, rfl, rfl, rfl, rfl, rfl, rfl, rfl, [], by simp, by norm_num⟩
  · rw [h]
    exact ⟨rfl, rfl, rfl, rfl, rfl, rfl, rfl, rfl, rfl,
      (frequent_similar_skills ord ja ss).take 2, rfl, List.length_take_le _ _⟩

/-! ## Helper lemmas about the find_similar_scans loop -/

/-- A successfully built record keeps the neighbor's id and score. -/
theorem build_similar_scan_fields (jl : String → Option (List String)) (m : Neighbor)
    (s : SimilarScan) (h : build_similar_scan jl m = some s) :
    s.scan_id = m.id ∧ s.similarity_score = m.score := by
  unfold build_similar_scan at h
  split at h
  · cases h
  · split at h
    · cases h
    · cases h
      exact ⟨rfl, rfl⟩

/-- When the loop succeeds, every produced record cleared the threshold and
the exclude check, and the produced scores form a sublist of the neighbor
scores (so the query's ordering is preserved). -/
theorem process_query_matches_ok (jl : String → Option (List String)) (th : ℚ)
    (ex : Option String) :
    ∀ (ns : List Neighbor) (l : List SimilarScan),
      process_query_matches jl th ex ns = Except.ok l →
      (∀ s ∈ l, th ≤ s.similarity_score ∧ exclude_check ex s.scan_id = false) ∧
      (l.map (·.similarity_score)).Sublist (ns.map (·.score)) := by
  intro ns
  induction ns with
  | nil =>
    intro l h
    cases h
    exact ⟨by simp, by simp⟩
  | cons m rest ih =>
    intro l h
    unfold process_query_matches at h
    split_ifs at h with hlt hex
    · obtain ⟨h1, h2⟩ := ih l h
      exact ⟨h1, h2.cons _⟩
    · obtain ⟨h1, h2⟩ := ih l h
      exact ⟨h1, h2.cons _⟩
    · rcases hb : build_similar_scan jl m with _ | s
      · rw [hb] at h
        cases h
      · rw [hb] at h
        rcases hr : process_query_matches jl th ex rest with e | l'
        · rw [hr] at h
          cases h
        · rw [hr] at h
          simp only [Except.map] at h
          cases h
          obtain ⟨hf1, hf2⟩ := build_similar_scan_fields jl m s hb
          obtain ⟨h1, h2⟩ := ih l' hr
          constructor
          · intro x hx
            rcases List.mem_cons.mp hx with rfl | hx
            · exact ⟨by rw [hf2]; exact not_lt.mp hlt,
                by rw [hf1]; exact Bool.not_eq_true _ ▸ (by simpa using hex)⟩
            · exact h1 x hx
          · simp only [List.map_cons, hf2]
            exact h2.cons₂ _

/-- When every neighbor is below the threshold the loop returns the empty
list without error. -/
theorem process_query_matches_all_below (jl : String → Option (List String)) (th : ℚ)
    (ex : Option String) :
    ∀ ns : List Neighbor, (∀ m ∈ ns, m.score < th) →
      process_query_matches jl th ex ns = Except.ok [] := by
  intro ns
  induction ns with
  | nil => intro _; rfl
  | cons m rest ih =>
    intro h
    unfold process_query_matches
    rw [if_pos (h m (by simp))]
    exact ih (fun x hx => h x (by simp [hx]))

/-- If some neighbor survives the threshold and exclude filters but its
metadata fails to deserialize, the whole loop raises. -/
theorem process_query_matches_error_of_bad_survivor
    (jl : String → Option (List String)) (th : ℚ) (ex : Option String) :
    ∀ ns : List Neighbor,
      (∃ m ∈ ns, ¬ m.score < th ∧ exclude_check ex m.id = false ∧
        build_similar_scan jl m = none) →
      ∃ e, process_query_matches jl th ex ns = Except.error e := by
  intro ns
  induction ns with
  | nil =>
    rintro ⟨m, hm, _⟩
    cases hm
  | cons m rest ih =>
    rintro ⟨m', hm', hm'lt, hm'ex, hm'b⟩
    unfold process_query_matches
    by_cases hlt : m.score < th
    · rw [if_pos hlt]
      apply ih
      rcases List.mem_cons.mp hm' with rfl | hmem
      · exact absurd hlt hm'lt
      · exact ⟨m', hmem, hm'lt, hm'ex, hm'b⟩
    · rw [if_neg hlt]
      by_cases hex : exclude_check ex m.id = true
      · rw [if_pos hex]
        apply ih
        rcases List.mem_cons.mp hm' with rfl | hmem
        · rw [hm'ex] at hex
          cases hex
        · exact ⟨m', hmem, hm'lt, hm'ex, hm'b⟩
      · rw [if_neg hex]
        rcases hb : build_similar_scan jl m with _ | s
        · exact ⟨"JSONDecodeError", rfl⟩
        · have hrec : ∃ e, process_query_matches jl th ex rest = Except.error e := by
            apply ih
            rcases List.mem_cons.mp hm' with rfl | hmem
            · rw [hm'b] at hb
              cases hb
            · exact ⟨m', hmem, hm'lt, hm'ex, hm'b⟩
          obtain ⟨e, he⟩ := hrec
          rw [he]
          exact ⟨e, rfl⟩

/-! ## C4: a malformed metadata field on one neighbor -/

/-- C4 counterexample: two neighbors both above the 0.7 threshold, the
second with unparseable skills metadata `"not-json"`. The deserialization
exception aborts the whole loop and the outer handler returns the empty
list — the well-formed first match is discarded too, instead of the claim's
per-field degradation that keeps both matches. -/
theorem malformed_metadata_not_isolated :
    (7/10 : ℚ) ≤ good_neighbor.score ∧ (7/10 : ℚ) ≤ bad_neighbor.score ∧
    find_similar_scans json_loads_model (Except.ok ())
      (Except.ok [good_neighbor, bad_neighbor]) 5 (7/10) none = [] := by
  refine ⟨by norm_num [good_neighbor], by norm_num [bad_neighbor], ?_⟩
  simp [find_similar_scans, process_query_matches, build_similar_scan,
    good_neighbor, bad_neighbor, empty_metadata, json_loads_model, exclude_check,
    Except.map]
  norm_num

/-- C4 (amended): when any neighbor that survives the threshold and exclude
filters has unparseable serialized skill metadata, the `json.loads`
exception is caught only by `find_similar_scans`' outer handler, which
returns the empty list — no exception reaches the caller, but the affected
match and every other match are discarded rather than returned. -/
theorem malformed_metadata_discards_all_matches (jl : String → Option (List String))
    (emb : Except String Unit) (ns : List Neighbor) (top_k : ℕ) (th : ℚ)
    (ex : Option String)
    (h : ∃ m ∈ ns, ¬ m.score < th ∧ exclude_check ex m.id = false ∧
      build_similar_scan jl m = none) :
    find_similar_scans jl emb (Except.ok ns) top_k th ex = [] := by
  obtain ⟨e, he⟩ := process_query_matches_error_of_bad_survivor jl th ex ns h
  cases emb with
  | error msg => rfl
  | ok u =>
    cases u
    simp [find_similar_scans, he]

/-- Witness for `malformed_metadata_discards_all_matches` at the single
unparseable neighbor. -/
theorem malformed_metadata_discards_all_matches_witness :
    (∃ m ∈ [bad_neighbor], ¬ m.score < (7/10 : ℚ) ∧ exclude_check none m.id = false ∧
      build_similar_scan json_loads_model m = none) ∧
    find_similar_scans json_loads_model (Except.ok ())
      (Except.ok [bad_neighbor]) 5 (7/10) none = [] :=
  ⟨⟨bad_neighbor, by simp, by norm_num [bad_neighbor], rfl, rfl⟩,
    malformed_metadata_discards_all_matches json_loads_model (Except.ok ())
      [bad_neighbor] 5 (7/10) none
      ⟨bad_neighbor, by simp, by norm_num [bad_neighbor], rfl, rfl⟩⟩

/-! ## C6: provider and index failures at the find_similar_scans layer -/

/-- C6 counterexample: an embedding-provider failure makes
`find_similar_scans` return the plain empty list — the very same value a
successful query over an empty index returns — so the immediate caller
receives no retrievable error; the failure is swallowed at this layer. -/
theorem provider_failure_indistinguishable :
    find_similar_scans json_loads_model (Except.error "ProviderError")
      (Except.ok [good_neighbor]) 5 (7/10) none = [] ∧
    find_similar_scans json_loads_model (Except.error "ProviderError")
      (Except.ok [good_neighbor]) 5 (7/10) none =
    find_similar_scans json_loads_model (Except.ok ())
      (Except.ok []) 5 (7/10) none := by
  constructor
  · rfl
  · simp [find_similar_scans, process_query_matches]

/-- C6 (amended): an embedding-provider or index-query failure is caught
inside `find_similar_scans` itself, which logs and returns the empty list;
the immediate caller receives `[]` and cannot distinguish failure from an
empty result. The composed entry point `find_similar_market_scans` then
yields matches `[]` with confidence 0. -/
theorem provider_failure_swallowed_to_empty (jl : String → Option (List String))
    (ns : List Neighbor) (top_k : ℕ) (th : ℚ) (ex : Option String)
    (msg msg2 : String) :
    find_similar_scans jl (Except.error msg) (Except.ok ns) top_k th ex = [] ∧
    find_similar_scans jl (Except.ok ()) (Except.error msg2) top_k th ex = [] ∧
    find_similar_market_scans jl (Except.error msg) (Except.ok ns) top_k th ex =
      ([], 0) := by
  refine ⟨rfl, rfl, ?_⟩
  simp [find_similar_market_scans, find_similar_scans, calculate_confidence_score]

/-! ## C7: the find_similar_scans filter/truncate/sort contract -/

/-- C7 counterexample: calling with the empty-string exclude id. Python's
truthiness test disables the exclusion filter for `exclude_scan_id = ""`,
so a neighbor whose id is also `""` is returned even though its id equals
the exclude id, contradicting the claim's unconditional `id ≠ excludeId`. -/
theorem empty_exclude_id_not_filtered :
    (find_similar_scans json_loads_model (Except.ok ())
      (Except.ok [empty_id_neighbor]) 5 (7/10) (some "")).map (·.scan_id) = [""] := by
  simp [find_similar_scans, process_query_matches, build_similar_scan,
    empty_id_neighbor, empty_metadata, json_loads_model, exclude_check, Except.map]
  norm_num

/-- C7 (amended): every returned match clears the threshold; a returned
match's id differs from the exclude id whenever the exclude id is a
non-empty string (an empty-string exclude id is falsy in Python and
disables the check); at most `top_k` matches are returned; given the index
returns neighbors sorted descending by score, the returned matches are
sorted descending by similarity score; and an empty index or no neighbor
clearing the threshold yields the empty list rather than an error. -/
theorem find_similar_scans_filter_contract (jl : String → Option (List String))
    (ns : List Neighbor) (top_k : ℕ) (th : ℚ) (ex : Option String)
    (hsorted : ns.Pairwise (fun a b => b.score ≤ a.score)) :
    (∀ s ∈ find_similar_scans jl (Except.ok ()) (Except.ok ns) top_k th ex,
        th ≤ s.similarity_score) ∧
    (∀ s ∈ find_similar_scans jl (Except.ok ()) (Except.ok ns) top_k th ex,
        ∀ e, ex = some e → e ≠ "" → s.scan_id ≠ e) ∧
    (find_similar_scans jl (Except.ok ()) (Except.ok ns) top_k th ex).length ≤ top_k ∧
    (find_similar_scans jl (Except.ok ()) (Except.ok ns) top_k th ex).Pairwise
      (fun a b => b.similarity_score ≤ a.similarity_score) ∧
    ((∀ m ∈ ns, m.score < th) →
      find_similar_scans jl (Except.ok ()) (Except.ok ns) top_k th ex = []) ∧
    find_similar_scans jl (Except.ok ()) (Except.ok ([] : List Neighbor))
      top_k th ex = [] := by
  have hnil : find_similar_scans jl (Except.ok ()) (Except.ok ([] : List Neighbor))
      top_k th ex = [] := by
    simp [find_similar_scans, process_query_matches]
  rcases hp : process_query_matches jl th ex ns with e | l
  · have hr : find_similar_scans jl (Except.ok ()) (Except.ok ns) top_k th ex = [] := by
      simp [find_similar_scans, hp]
    rw [hr]
    exact ⟨by simp, by simp, by simp, by simp, fun _ => rfl, hnil⟩
  · have hr : find_similar_scans jl (Except.ok ()) (Except.ok ns) top_k th ex =
        l.take top_k := by
      simp [find_similar_scans, hp]
    obtain ⟨hmem, hsub⟩ := process_query_matches_ok jl th ex ns l hp
    rw [hr]
    refine ⟨?_, ?_, List.length_take_le _ _, ?_, ?_, hnil⟩
    · intro s hs
      exact (hmem s (List.mem_of_mem_take hs)).1
    · intro s hs e he hene hid
      have hexc := (hmem s (List.mem_of_mem_take hs)).2
      subst he
      unfold exclude_check at hexc
      simp [hene, hid] at hexc
    · have h1 : (ns.map (·.score)).Pairwise (fun x y => y ≤ x) :=
        (List.pairwise_map).mpr hsorted
      have h2 : (l.map (·.similarity_score)).Pairwise (fun x y => y ≤ x) :=
        h1.sublist hsub
      have h3 : l.Pairwise (fun a b => b.similarity_score ≤ a.similarity_score) :=
        (List.pairwise_map).mp h2
      exact h3.sublist (List.take_sublist _ _)
    · intro hall
      have hz := process_query_matches_all_below jl th ex ns hall
      rw [hz] at hp
      cases hp
      simp

/-- Witness for `find_similar_scans_filter_contract` at a single-neighbor
index. -/
theorem find_similar_scans_filter_contract_witness :
    ([good_neighbor].Pairwise (fun a b => b.score ≤ a.score)) ∧
    ((∀ s ∈ find_similar_scans json_loads_model (Except.ok ())
        (Except.ok [good_neighbor]) 5 (7/10) none, (7/10 : ℚ) ≤ s.similarity_score) ∧
    (∀ s ∈ find_similar_scans json_loads_model (Except.ok ())
        (Except.ok [good_neighbor]) 5 (7/10) none,
        ∀ e, (none : Option String) = some e → e ≠ "" → s.scan_id ≠ e) ∧
    (find_similar_scans json_loads_model (Except.ok ())
      (Except.ok [good_neighbor]) 5 (7/10) none).length ≤ 5 ∧
    (find_similar_scans json_loads_model (Except.ok ())
      (Except.ok [good_neighbor]) 5 (7/10) none).Pairwise
      (fun a b => b.similarity_score ≤ a.similarity_score) ∧
    ((∀ m ∈ [good_neighbor], m.score < (7/10 : ℚ)) →
      find_similar_scans json_loads_model (Except.ok ())
        (Except.ok [good_neighbor]) 5 (7/10) none = []) ∧
    find_similar_scans json_loads_model (Except.ok ())
      (Except.ok ([] : List Neighbor)) 5 (7/10) none = []) :=
  ⟨by simp,
    find_similar_scans_filter_contract json_loads_model [good_neighbor] 5 (7/10)
      none (by simp)⟩

/-! ## C10: defaults for absent metadata fields -/

/-- C10: every record built for a surviving neighbor is complete — absent
string metadata defaults to the empty string, absent serialized lists
deserialize to the empty list (given the json library parses `"[]"` to the
empty list), and an absent complexity score defaults to 5. -/
theorem surviving_neighbor_defaults (jl : String → Option (List String))
    (m : Neighbor) (s : SimilarScan) (hjl : jl "[]" = some [])
    (h : build_similar_scan jl m = some s) :
    (m.metadata.job_title = none → s.job_title = "") ∧
    (m.metadata.company_domain = none → s.company_domain = "") ∧
    (m.metadata.client_name = none → s.client_name = "") ∧
    (m.metadata.role_category = none → s.role_category = "") ∧
    (m.metadata.experience_level = none → s.experience_level = "") ∧
    (m.metadata.created_at = none → s.created_at = "") ∧
    (m.metadata.complexity_score = none → s.complexity_score = 5) ∧
    (m.metadata.must_have_skills = none → s.must_have_skills = []) ∧
    (m.metadata.recommended_regions = none → s.recommended_regions = []) := by
  unfold build_similar_scan at h
  rcases hsk : jl (m.metadata.must_have_skills.getD "[]") with _ | skills
  · rw [hsk] at h
    cases h
  · rw [hsk] at h
    rcases hrg : jl (m.metadata.recommended_regions.getD "[]") with _ | regions
    · rw [hrg] at h
      cases h
    · rw [hrg] at h
      cases h
      refine ⟨fun hz => by simp [hz], fun hz => by simp [hz], fun hz => by simp [hz],
        fun hz => by simp [hz], fun hz => by simp [hz], fun hz => by simp [hz],
        fun hz => by simp [hz], fun hz => ?_, fun hz => ?_⟩
      · rw [hz] at hsk
        simp only [Option.getD] at hsk
        rw [hjl] at hsk
        cases hsk
        rfl
      · rw [hz] at hrg
        simp only [Option.getD] at hrg
        rw [hjl] at hrg
        cases hrg
        rfl

/-- Witness for `surviving_neighbor_defaults` at a neighbor with every
metadata field absent. -/
theorem surviving_neighbor_defaults_witness :
    json_loads_model "[]" = some [] ∧
    build_similar_scan json_loads_model good_neighbor = some default_scan ∧
    ((good_neighbor.metadata.job_title = none → default_scan.job_title = "") ∧
    (good_neighbor.metadata.company_domain = none → default_scan.company_domain = "") ∧
    (good_neighbor.metadata.client_name = none → default_scan.client_name = "") ∧
    (good_neighbor.metadata.role_category = none → default_scan.role_category = "") ∧
    (good_neighbor.metadata.experience_level = none →
      default_scan.experience_level = "") ∧
    (good_neighbor.metadata.created_at = none → default_scan.created_at = "") ∧
    (good_neighbor.metadata.complexity_score = none →
      default_scan.complexity_score = 5) ∧
    (good_neighbor.metadata.must_have_skills = none →
      default_scan.must_have_skills = []) ∧
    (good_neighbor.metadata.recommended_regions = none →
      default_scan.recommended_regions = [])) :=
  ⟨rfl, rfl, surviving_neighbor_defaults json_loads_model good_neighbor
    default_scan rfl rfl⟩

/-! ## C8: embedding-text symmetry between write path and query path -/

/-- C8: for every title and description the embedding text built by the
write path and by the query path are identical, and remain identical after
the shared cleaning/truncation rule is applied. -/
theorem embedding_text_symmetry (job_title job_description : String) :
    upsert_embedding_text job_title job_description =
      query_embedding_text job_title job_description ∧
    clean_text_for_embedding (upsert_embedding_text job_title job_description) =
      clean_text_for_embedding (query_embedding_text job_title job_description) :=
  ⟨rfl, rfl⟩

/-- Witness for `confidence_bounds` at the singleton list with score 1/2. -/
theorem confidence_bounds_witness :
    ([mkMatch (1/2)] ≠ ([] : List SimilarScan)) ∧
    (∀ m ∈ [mkMatch (1/2)], 0 ≤ m.similarity_score ∧ m.similarity_score ≤ 1) ∧
    (calculate_confidence_score [] = 0 ∧
      0 ≤ calculate_confidence_score [mkMatch (1/2)] ∧
      calculate_confidence_score [mkMatch (1/2)] ≤ 1 ∧
      ((∃ m ∈ [mkMatch (1/2)].take 3, 0 < m.similarity_score) →
        0 < calculate_confidence_score [mkMatch (1/2)])) :=
  ⟨by simp, by norm_num [mkMatch],
    confidence_bounds [mkMatch (1/2)] (by simp) (by norm_num [mkMatch])⟩

end Tidal
